import Mathlib

/-!
Verification of the device-validation core of this repository
(`cirq/google/xmon_device.py` and `cirq/contrib/acquaintance/devices.py`)
against its natural-language specification.

The Python classes are shallowly embedded: gate variants become a closed
`GateKind` tag (the spec's data model), operations carry a gate and an ordered
operand list, devices are immutable value structures, and every validator that
raises in Python returns `Except DeviceError`.
-/

namespace Cirq

/-- A grid position `(row, col)`, embedding `cirq.devices.grid_qubit.GridQubit`. -/
structure GridQubit where
  row : Int
  col : Int
deriving DecidableEq, Repr

/-- Modelled from the spec: `GridQubit.is_adjacent` lives in
`cirq/devices/grid_qubit.py`, which is not part of the excerpt. Per the spec,
adjacency is symmetric and exactly the four cardinal neighbors (row plus or
minus one at the same column, column plus or minus one at the same row),
equivalently Manhattan distance one; diagonal positions are never adjacent. -/
def GridQubit.is_adjacent (p q : GridQubit) : Bool :=
  (p.row - q.row).natAbs + (p.col - q.col).natAbs == 1

/-- An operand of an operation: either a grid position (`GridQubit`) or some
other, non-Position qubit type (the source checks `isinstance(q, GridQubit)`). -/
inductive Qid where
  | grid (q : GridQubit)
  | nonGrid (id : Nat)
deriving DecidableEq, Repr

/-- The closed tag over gate variants relevant to validation (the spec's
`GateKind`): each Python gate class used by the two source files becomes one
tag. A measurement gate carries its measurement key; the swap-network gates
carry the data the classifier reads off them. -/
inductive GateKind where
  | czPow
  | xPow
  | yPow
  | phasedXPow
  | zPow
  | measurementGate (key : String)
  | acquaintanceOpportunity
  | permutation
  | bipartiteSwapNetwork
  | shiftSwapNetwork (declared_acquaintance_size : Int)
  | swapNetwork (acquaintance_size : Option Int) (part_lens : List Int)
  | unknownGate
deriving DecidableEq, Repr

/-- A gate: its kind plus the optional capability hook the classifier reads
via `getattr(obj.gate, '_acquaintance_size_', None)` (a function from operand
count to a size, absent on most gates). -/
structure Gate where
  kind : GateKind
  acquaintance_size_hook : Option (Nat → Int) := none

/-- A `cirq.ops.GateOperation`: a gate applied to an ordered operand list. -/
structure GateOperation where
  gate : Gate
  qubits : List Qid

/-- A `cirq.ops.Operation`: either a gate operation or some other operation
construct without a `.gate` (the source checks `isinstance(op, GateOperation)`). -/
inductive Operation where
  | gateOp (g : GateOperation)
  | nonGateOp (id : Nat)

/-- A `cirq.ops.Moment`: the operations scheduled in one synchronized step. -/
structure Moment where
  operations : List Operation

/-- Which device a circuit was constructed against; only the class of the
device matters to `is_acquaintance_strategy`. -/
inductive DeviceTag where
  | acquaintanceDevice
  | otherDevice
deriving DecidableEq, Repr

/-- A `cirq.circuits.Circuit`: its moments plus the device it was built for. -/
structure Circuit where
  moments : List Moment
  device : DeviceTag

/-- All operations of a circuit, moment by moment (`Circuit.all_operations`). -/
def Circuit.all_operations (c : Circuit) : List Operation :=
  (c.moments.map Moment.operations).flatten

/-- A non-negative scalar time cost (`cirq.value.Duration`), as an integer. -/
abbrev Duration := Int

/-- A scheduled operation: an operation with its start time and duration. -/
structure ScheduledOperation where
  operation : Operation
  start_time : Int
  duration : Duration

/-- A `cirq.schedules.Schedule`: a collection of scheduled operations. -/
structure Schedule where
  scheduled_operations : List ScheduledOperation

/-- The error taxonomy of the spec; every Python `ValueError` / `TypeError` /
`NotImplementedError` raised by the two source files maps to one constructor. -/
inductive DeviceError where
  | unsupportedOperation
  | unsupportedGate
  | qubitNotOnDevice
  | nonLocalInteraction
  | adjacentInteraction
  | duplicateMeasurementKey (key : String)
  | typeMismatch
  | notSupported
deriving DecidableEq, Repr

instance {ε α : Type} [DecidableEq ε] [DecidableEq α] : DecidableEq (Except ε α) := fun a b =>
  match a, b with
  | .ok x, .ok y =>
      if h : x = y then isTrue (by rw [h]) else isFalse (by simp [h])
  | .error x, .error y =>
      if h : x = y then isTrue (by rw [h]) else isFalse (by simp [h])
  | .ok _, .error _ => isFalse (by simp)
  | .error _, .ok _ => isFalse (by simp)

/-- True for a measurement gate kind (`isinstance(gate, MeasurementGate)`). -/
def GateKind.isMeasurement : GateKind → Bool
  | .measurementGate _ => true
  | _ => false

/-- True exactly for the gate kinds of `XmonDevice.validate_gate`'s isinstance
tuple: CZPow, XPow, YPow, PhasedXPow, Measurement, ZPow. -/
def allowedXmonGateKind : GateKind → Bool
  | .czPow => true
  | .xPow => true
  | .yPow => true
  | .phasedXPow => true
  | .measurementGate _ => true
  | .zPow => true
  | _ => false

/-- `ops.op_gate_of_type(operation, ops.CZPowGate)` viewed as a Boolean test:
the operation is a gate operation whose gate is a CZPow gate. -/
def Operation.op_gate_is_czPow : Operation → Bool
  | .gateOp g => match g.gate.kind with | .czPow => true | _ => false
  | .nonGateOp _ => false

/-- The xmon device value: the three configured durations and the qubit set
(`self.qubits = frozenset(qubits)`). The `exp_11_duration` constructor argument
is stored in the `_exp_z_duration` field, mirrored here by the field name. -/
structure XmonDevice where
  measurement_duration : Duration
  exp_w_duration : Duration
  exp_z_duration : Duration
  qubits : Finset GridQubit

/-- `XmonDevice.neighbors_of`: the four cardinal candidates filtered by
membership in the device's qubit set, in the source's candidate order. -/
def XmonDevice.neighbors_of (d : XmonDevice) (q : GridQubit) : List GridQubit :=
  [ GridQubit.mk (q.row + 1) q.col,
    GridQubit.mk (q.row - 1) q.col,
    GridQubit.mk q.row (q.col + 1),
    GridQubit.mk q.row (q.col - 1)
  ].filter (fun e => decide (e ∈ d.qubits))

/-- `XmonDevice.duration_of`: dispatch on the gate kind; CZPow yields the
stored exp-z (exp11) duration, measurement the measurement duration, XPow /
YPow / PhasedXPow the exp-w duration, ZPow a zero duration, anything else
raises `ValueError` (the spec's `UnsupportedGateError`). -/
def XmonDevice.duration_of (d : XmonDevice) : Operation → Except DeviceError Duration
  | .gateOp g =>
      match g.gate.kind with
      | .czPow => .ok d.exp_z_duration
      | .measurementGate _ => .ok d.measurement_duration
      | .xPow => .ok d.exp_w_duration
      | .yPow => .ok d.exp_w_duration
      | .phasedXPow => .ok d.exp_w_duration
      | .zPow => .ok 0
      | _ => .error .unsupportedGate
  | .nonGateOp _ => .error .unsupportedGate

/-- `XmonDevice.validate_gate`: raises unless the gate is in the allowed
isinstance tuple. -/
def XmonDevice.validate_gate (_d : XmonDevice) (g : Gate) : Except DeviceError Unit :=
  if allowedXmonGateKind g.kind then .ok () else .error .unsupportedGate

/-- The per-qubit loop of `XmonDevice.validate_operation`: a non-`GridQubit`
operand raises `ValueError('Unsupported qubit type')` and an off-device
position raises `ValueError('Qubit not on device')`; the spec's taxonomy maps
both to `QubitNotOnDeviceError`. -/
def XmonDevice.validate_qubits (d : XmonDevice) : List Qid → Except DeviceError Unit
  | [] => .ok ()
  | .grid q :: rest =>
      if q ∈ d.qubits then d.validate_qubits rest else .error .qubitNotOnDevice
  | .nonGrid _ :: _ => .error .qubitNotOnDevice

/-- The two-operand adjacency test of `validate_operation`: the source unpacks
`p, q = operation.qubits` (all operands are `GridQubit`s by the time this runs)
and tests `p.is_adjacent(q)`. -/
def adjacentPair : List Qid → Bool
  | [Qid.grid p, Qid.grid q] => p.is_adjacent q
  | _ => false

/-- `XmonDevice.validate_operation`: rejects non-gate operations, then the
gate kind, then each operand, then two-operand non-measurement locality. -/
def XmonDevice.validate_operation (d : XmonDevice) : Operation → Except DeviceError Unit
  | .nonGateOp _ => .error .unsupportedOperation
  | .gateOp g => do
      d.validate_gate g.gate
      d.validate_qubits g.qubits
      if g.qubits.length = 2 ∧ g.gate.kind.isMeasurement = false then
        if adjacentPair g.qubits then .ok () else .error .nonLocalInteraction
      else .ok ()

/-- The gate kinds excluded by `_check_if_exp11_operation_interacts`: XPow,
YPow, PhasedXPow, Measurement, ZPow never interact. -/
def nonInteractingGateKind : GateKind → Bool
  | .xPow => true
  | .yPow => true
  | .phasedXPow => true
  | .measurementGate _ => true
  | .zPow => true
  | _ => false

/-- Adjacency lifted to operands. The source casts both qubits to `GridQubit`
(true for all validated operations); a non-Position operand is grid-adjacent
to nothing. -/
def Qid.adjacentB : Qid → Qid → Bool
  | .grid p, .grid q => p.is_adjacent q
  | _, _ => false

/-- `XmonDevice._check_if_exp11_operation_interacts`: false when the other
operation's gate kind is non-interacting, else true iff some operand of the
exp11 operation is grid-adjacent to some operand of the other operation. -/
def check_if_exp11_operation_interacts (exp11_op other_op : GateOperation) : Bool :=
  if nonInteractingGateKind other_op.gate.kind then false
  else exp11_op.qubits.any (fun q => other_op.qubits.any (fun p => q.adjacentB p))

/-- `check_if_exp11_operation_interacts` lifted to `Operation`. The source
casts moment members to `GateOperation`; a non-gate operation never reaches
this check (moment validation rejects it first), so it interacts with nothing. -/
def interactsOpB : Operation → Operation → Bool
  | .gateOp a, .gateOp b => check_if_exp11_operation_interacts a b
  | _, _ => false

/-- `XmonDevice._check_if_exp11_operation_interacts_with_any`. -/
def check_if_exp11_operation_interacts_with_any (exp11_op : GateOperation)
    (others : List GateOperation) : Bool :=
  others.any (check_if_exp11_operation_interacts exp11_op)

/-- Validate each operation of a list in order, stopping at the first error. -/
def XmonDevice.validate_ops_list (d : XmonDevice) : List Operation → Except DeviceError Unit
  | [] => .ok ()
  | op :: rest => do
      d.validate_operation op
      d.validate_ops_list rest

/-- Modelled from the spec: `devices.Device.validate_moment` (the base class in
`cirq/devices/device.py` is not part of the excerpt). Per the spec's control
flow, the operation validator is invoked for every operation of a moment. -/
def XmonDevice.base_validate_moment (d : XmonDevice) (m : Moment) : Except DeviceError Unit :=
  d.validate_ops_list m.operations

/-- The nested conflict loop of `XmonDevice.validate_moment`: some member with
a CZPow gate interacts with some member at a different position of the
operation tuple (`other is not op` is object identity, modelled by index). -/
def momentConflictB (ops : List Operation) : Bool :=
  (List.range ops.length).any fun i =>
    Operation.op_gate_is_czPow (ops.getD i (.nonGateOp 0)) &&
      (List.range ops.length).any fun j =>
        decide (j ≠ i) &&
          interactsOpB (ops.getD i (.nonGateOp 0)) (ops.getD j (.nonGateOp 0))

/-- `XmonDevice.validate_moment`: base per-operation validation, then the
crosstalk conflict scan raising `ValueError('Adjacent Exp11 operations')`
(the spec's `AdjacentInteractionError`). -/
def XmonDevice.validate_moment (d : XmonDevice) (m : Moment) : Except DeviceError Unit := do
  d.base_validate_moment m
  if momentConflictB m.operations then .error .adjacentInteraction else .ok ()

/-- Modelled from the spec: `devices.Device.can_add_operation_into_moment`
(base class not in the excerpt). The spec ascribes no check to
`can_add_to_moment` beyond moment validation and the crosstalk rule, so the
base check is modelled as trivially true. -/
def base_can_add_operation_into_moment (_op : Operation) (_m : Moment) : Bool :=
  true

/-- `XmonDevice.can_add_operation_into_moment`: validates the existing moment
(a failure there propagates as an error, it is not caught), consults the base
check, and for a CZPow operation returns the negated conflict test against the
moment's operations. -/
def XmonDevice.can_add_operation_into_moment (d : XmonDevice) (op : Operation)
    (m : Moment) : Except DeviceError Bool := do
  d.validate_moment m
  if ! base_can_add_operation_into_moment op m then
    pure false
  else if Operation.op_gate_is_czPow op then
    pure (! m.operations.any (fun other => interactsOpB op other))
  else
    pure true

/-- Modelled from the spec: `protocols.is_measurement` /
`protocols.measurement_key` (the protocols module is not part of the excerpt).
Per the spec's data model, a measurement key is a string identifier attached
to measurement-kind operations; here the measurement gate kind carries it. -/
def Operation.measurement_key : Operation → Option String
  | .gateOp g => match g.gate.kind with | .measurementGate k => some k | _ => none
  | .nonGateOp _ => none

/-- The scanning loop of `_verify_unique_measurement_keys`, with the `seen`
set made explicit: the first measurement key already seen raises
`ValueError('Measurement key ... repeated')`. -/
def verify_keys_from (seen : List String) : List Operation → Except DeviceError Unit
  | [] => .ok ()
  | op :: rest =>
      match op.measurement_key with
      | some k =>
          if k ∈ seen then .error (.duplicateMeasurementKey k)
          else verify_keys_from (k :: seen) rest
      | none => verify_keys_from seen rest

/-- `_verify_unique_measurement_keys` (module-level function of the source). -/
def verify_unique_measurement_keys (ops : List Operation) : Except DeviceError Unit :=
  verify_keys_from [] ops

/-- Validate each moment of a list in order, stopping at the first error. -/
def XmonDevice.validate_moments_list (d : XmonDevice) : List Moment → Except DeviceError Unit
  | [] => .ok ()
  | m :: rest => do
      d.validate_moment m
      d.validate_moments_list rest

/-- Modelled from the spec: `devices.Device.validate_circuit` (base class not
in the excerpt). Per the spec's control flow, whole-circuit validation runs
the conflict detector on every completed moment. -/
def XmonDevice.base_validate_circuit (d : XmonDevice) (c : Circuit) : Except DeviceError Unit :=
  d.validate_moments_list c.moments

/-- `XmonDevice.validate_circuit`: base validation of every moment, then the
measurement-key uniqueness scan over all operations of the circuit. -/
def XmonDevice.validate_circuit (d : XmonDevice) (c : Circuit) : Except DeviceError Unit := do
  d.base_validate_circuit c
  verify_unique_measurement_keys c.all_operations

/-! The acquaintance device (`cirq/contrib/acquaintance/devices.py`). -/

/-- `AcquaintanceDevice.gate_types` as a kind test: the isinstance tuple
`(AcquaintanceOpportunityGate, PermutationGate)`. -/
def acquaintanceGateKind : GateKind → Bool
  | .acquaintanceOpportunity => true
  | .permutation => true
  | _ => false

/-- `AcquaintanceDevice.validate_operation`: a single `ValueError` rejects an
operation that is not a gate operation with a gate of the allowed types; it
inspects nothing else (in particular, no operand qubit is examined). -/
def acquaintance_validate_operation : Operation → Except DeviceError Unit
  | .gateOp g =>
      if acquaintanceGateKind g.gate.kind then .ok () else .error .unsupportedGate
  | .nonGateOp _ => .error .unsupportedOperation

/-- `AcquaintanceDevice.duration_of`: raises `NotImplementedError` always. -/
def acquaintance_duration_of (_op : Operation) : Except DeviceError Duration :=
  .error .notSupported

/-- `AcquaintanceDevice.validate_scheduled_operation`: raises always. -/
def acquaintance_validate_scheduled_operation (_s : Schedule)
    (_so : ScheduledOperation) : Except DeviceError Unit :=
  .error .notSupported

/-- `AcquaintanceDevice.validate_schedule`: raises always. -/
def acquaintance_validate_schedule (_s : Schedule) : Except DeviceError Unit :=
  .error .notSupported

/-- `is_acquaintance_strategy`: a pure tag check on the circuit's device. -/
def is_acquaintance_strategy (c : Circuit) : Bool :=
  match c.device with
  | .acquaintanceDevice => true
  | .otherDevice => false

/-- Insert into an ascending list, for `sortInts`. -/
def insertSorted (x : Int) : List Int → List Int
  | [] => [x]
  | y :: ys => if x ≤ y then x :: y :: ys else y :: insertSorted x ys

/-- Ascending insertion sort on integers, playing the role of Python's
`sorted`. -/
def sortInts : List Int → List Int
  | [] => []
  | x :: xs => insertSorted x (sortInts xs)

/-- `sum(sorted(part_lens)[-2:])`: the sum of the last two entries of the
ascending sort, i.e. of the two largest partition lengths. -/
def sortedTwoLargestSum (l : List Int) : Int :=
  ((sortInts l).drop (l.length - 2)).sum

/-- The final two lines of `get_acquaintance_size`: consult the optional
capability hook with the operand count, defaulting to 0 when it is absent. -/
def hookOr0 (g : GateOperation) : Int :=
  match g.gate.acquaintance_size_hook with
  | none => 0
  | some sizer => sizer g.qubits.length

/-- The operation branch of `get_acquaintance_size`: non-gate operations give
0; acquaintance-opportunity gives the operand count; bipartite swap network 2;
shift swap network the gate's own declared size; a generic swap network with
unset target size the sum of the two largest partition lengths, with a set
target size the target when target minus one appears among the partition
lengths; everything else (including that last fallthrough) consults the hook. -/
def get_acquaintance_size_op : Operation → Int
  | .nonGateOp _ => 0
  | .gateOp g =>
      match g.gate.kind with
      | .acquaintanceOpportunity => (g.qubits.length : Int)
      | .bipartiteSwapNetwork => 2
      | .shiftSwapNetwork declared => declared
      | .swapNetwork targetSize partLens =>
          match targetSize with
          | none => sortedTwoLargestSum partLens
          | some t => if (t - 1) ∈ partLens then t else hookOr0 g
      | _ => hookOr0 g

/-- Python's `max(sizes or (0,))`: the maximum of a non-empty list, or 0 for
an empty one (no extra 0 floor on a non-empty list). -/
def listMaxOr0 : List Int → Int
  | [] => 0
  | x :: xs => xs.foldl max x

/-- The argument of the polymorphic `get_acquaintance_size`. -/
inductive CircuitOrOperation where
  | circuit (c : Circuit)
  | operation (op : Operation)

/-- `get_acquaintance_size`: on a circuit, `TypeError` (the spec's
`TypeMismatchError`) unless the circuit is an acquaintance strategy, else the
maximum over its operations; on an operation, the dispatch above. -/
def get_acquaintance_size : CircuitOrOperation → Except DeviceError Int
  | .circuit c =>
      if is_acquaintance_strategy c then
        .ok (listMaxOr0 (c.all_operations.map get_acquaintance_size_op))
      else .error .typeMismatch
  | .operation op => .ok (get_acquaintance_size_op op)

/-! Concrete devices, operations and moments used by the spec's scenarios. -/

/-- The four-qubit square topology of the spec's concrete scenarios. -/
def qubits4 : Finset GridQubit :=
  {⟨0, 0⟩, ⟨0, 1⟩, ⟨1, 0⟩, ⟨1, 1⟩}

/-- A timing device on the square topology, with nominal durations. -/
def d4 : XmonDevice :=
  { measurement_duration := 3, exp_w_duration := 1, exp_z_duration := 2, qubits := qubits4 }

/-- A CZPow (two-qubit-interaction) operation on two given positions. -/
def czOp (p q : GridQubit) : Operation :=
  .gateOp { gate := { kind := .czPow }, qubits := [.grid p, .grid q] }

/-- An XPow (single-qubit-rotation) operation on a given position. -/
def xOp (p : GridQubit) : Operation :=
  .gateOp { gate := { kind := .xPow }, qubits := [.grid p] }

/-- A measurement operation with the given key on a given position. -/
def measOp (k : String) (p : GridQubit) : Operation :=
  .gateOp { gate := { kind := .measurementGate k }, qubits := [.grid p] }

/-- The spec's conflicting moment: CZ on (0,0)-(0,1) and CZ on (1,0)-(1,1). -/
def momentCZ2 : Moment :=
  ⟨[czOp ⟨0, 0⟩ ⟨0, 1⟩, czOp ⟨1, 0⟩ ⟨1, 1⟩]⟩

/-- The spec's conflict-free moment: single-qubit rotations on all four
positions. -/
def momentX4 : Moment :=
  ⟨[xOp ⟨0, 0⟩, xOp ⟨0, 1⟩, xOp ⟨1, 0⟩, xOp ⟨1, 1⟩]⟩

/-- A circuit with two measurement operations sharing the key "a". -/
def circDup : Circuit :=
  ⟨[⟨[measOp "a" ⟨0, 0⟩, measOp "a" ⟨0, 1⟩]⟩], .otherDevice⟩

/-- The same circuit with the second key changed to "b". -/
def circDistinct : Circuit :=
  ⟨[⟨[measOp "a" ⟨0, 0⟩, measOp "b" ⟨0, 1⟩]⟩], .otherDevice⟩

/-- A moment that fails validation: a rotation on an off-device position. -/
def momentBad : Moment :=
  ⟨[xOp ⟨5, 5⟩]⟩

/-! Specification-side predicates the claims are stated with. -/

/-- The operand is a Position that belongs to the device's topology. -/
def onDeviceB (d : XmonDevice) : Qid → Bool
  | .grid q => decide (q ∈ d.qubits)
  | .nonGrid _ => false

/-- The claim's notion of a cardinal grid neighbor: row plus or minus one at
the same column, or column plus or minus one at the same row. -/
def cardinalNeighbor (p q : GridQubit) : Prop :=
  (q.row = p.row + 1 ∧ q.col = p.col) ∨ (q.row = p.row - 1 ∧ q.col = p.col) ∨
    (q.row = p.row ∧ q.col = p.col + 1) ∨ (q.row = p.row ∧ q.col = p.col - 1)

/-- Some two-qubit-interaction member of the moment conflicts, per the
interacts rule, with some member at a different position of the tuple. -/
def momentConflictProp (ops : List Operation) : Prop :=
  ∃ i, i < ops.length ∧
    Operation.op_gate_is_czPow (ops.getD i (.nonGateOp 0)) = true ∧
    ∃ j, j < ops.length ∧ j ≠ i ∧
      interactsOpB (ops.getD i (.nonGateOp 0)) (ops.getD j (.nonGateOp 0)) = true

/-- The measurement keys of a sequence of operations, in scan order. -/
def measKeys (ops : List Operation) : List String :=
  ops.filterMap Operation.measurement_key

/-! Helper lemmas. -/

theorem except_ok_bind {ε α β : Type} (a : α) (f : α → Except ε β) :
    (Except.ok a >>= f) = f a := rfl

theorem except_error_bind {ε α β : Type} (e : ε) (f : α → Except ε β) :
    ((Except.error e : Except ε α) >>= f) = .error e := rfl

theorem validate_qubits_eq (d : XmonDevice) (qs : List Qid) :
    d.validate_qubits qs =
      if ∃ q ∈ qs, onDeviceB d q = false then .error .qubitNotOnDevice else .ok () := by
  induction qs with
  | nil => simp [XmonDevice.validate_qubits]
  | cons q rest ih =>
    cases q with
    | grid gq =>
      by_cases hq : gq ∈ d.qubits
      · rw [XmonDevice.validate_qubits, if_pos hq, ih]
        simp [onDeviceB, hq]
      · rw [XmonDevice.validate_qubits, if_neg hq]
        rw [if_pos ⟨.grid gq, List.mem_cons_self _ _, by simp [onDeviceB, hq]⟩]
    | nonGrid n =>
      rw [XmonDevice.validate_qubits]
      rw [if_pos ⟨.nonGrid n, List.mem_cons_self _ _, by simp [onDeviceB]⟩]

theorem validate_ops_list_ok (d : XmonDevice) (l : List Operation)
    (h : ∀ op ∈ l, d.validate_operation op = .ok ()) :
    d.validate_ops_list l = .ok () := by
  induction l with
  | nil => rfl
  | cons op rest ih =>
    show (d.validate_operation op >>= fun _ => d.validate_ops_list rest) = .ok ()
    rw [h op (List.mem_cons_self _ _), except_ok_bind]
    exact ih fun x hx => h x (List.mem_cons_of_mem _ hx)

theorem momentConflictB_iff (ops : List Operation) :
    momentConflictB ops = true ↔ momentConflictProp ops := by
  simp [momentConflictB, momentConflictProp, List.any_eq_true, List.mem_range,
    Bool.and_eq_true, decide_eq_true_eq]

theorem verify_keys_from_ok_iff (l : List Operation) :
    ∀ seen : List String,
      (verify_keys_from seen l = .ok () ↔
        (measKeys l).Nodup ∧ ∀ k ∈ measKeys l, k ∉ seen) := by
  induction l with
  | nil => intro seen; simp [verify_keys_from, measKeys]
  | cons op rest ih =>
    intro seen
    cases hk : op.measurement_key with
    | none =>
        simpa [verify_keys_from, hk, measKeys, List.filterMap_cons] using ih seen
    | some k0 =>
        by_cases hks : k0 ∈ seen
        · simp only [verify_keys_from, hk, if_pos hks, measKeys, List.filterMap_cons]
          constructor
          · intro h; exact absurd h (by simp)
          · rintro ⟨-, hall⟩
            exact absurd hks (hall k0 (List.mem_cons_self _ _))
        · simp only [verify_keys_from, hk, if_neg hks, measKeys, List.filterMap_cons]
          rw [ih (k0 :: seen)]
          constructor
          · rintro ⟨hnd, hall⟩
            refine ⟨List.nodup_cons.mpr ⟨?_, hnd⟩, ?_⟩
            · intro hmem
              exact (hall k0 hmem) (List.mem_cons_self _ _)
            · intro x hx
              rcases List.mem_cons.mp hx with rfl | hx'
              · exact hks
              · intro hxs
                exact (hall x hx') (List.mem_cons_of_mem _ hxs)
          · rintro ⟨hnd, hall⟩
            rcases List.nodup_cons.mp hnd with ⟨hk0, hnd'⟩
            refine ⟨hnd', ?_⟩
            intro x hx hxin
            rcases List.mem_cons.mp hxin with rfl | hxs
            · exact hk0 hx
            · exact (hall x (List.mem_cons_of_mem _ hx)) hxs

theorem verify_keys_from_error_iff (l : List Operation) :
    ∀ (seen : List String) (k : String),
      (verify_keys_from seen l = .error (.duplicateMeasurementKey k) ↔
        ∃ pre suf, measKeys l = pre ++ k :: suf ∧ pre.Nodup ∧
          (∀ a ∈ pre, a ∉ seen) ∧ (k ∈ pre ∨ k ∈ seen)) := by
  induction l with
  | nil =>
      intro seen k
      simp [verify_keys_from, measKeys]
  | cons op rest ih =>
    intro seen k
    cases hk : op.measurement_key with
    | none =>
        simpa [verify_keys_from, hk, measKeys, List.filterMap_cons] using ih seen k
    | some k0 =>
        by_cases hks : k0 ∈ seen
        · simp only [verify_keys_from, hk, if_pos hks, measKeys, List.filterMap_cons]
          constructor
          · intro h
            have hkk : k0 = k := by
              have := (Except.error.injEq _ _).mp h
              exact (DeviceError.duplicateMeasurementKey.injEq _ _).mp this
            subst hkk
            exact ⟨[], measKeys rest, rfl, List.nodup_nil, by simp, Or.inr hks⟩
          · rintro ⟨pre, suf, heq, hnd, hpre, hor⟩
            cases pre with
            | nil =>
                simp only [List.nil_append] at heq
                have : k0 = k := (List.cons.injEq _ _ _ _).mp heq |>.1
                rw [this]
            | cons p pre' =>
                have hp : p = k0 := ((List.cons.injEq _ _ _ _).mp heq.symm).1
                subst hp
                exact absurd hks (hpre p (List.mem_cons_self _ _))
        · simp only [verify_keys_from, hk, if_neg hks, measKeys, List.filterMap_cons]
          rw [ih (k0 :: seen) k]
          constructor
          · rintro ⟨pre', suf, heq, hnd, hpre, hor⟩
            have heqF : List.filterMap Operation.measurement_key rest = pre' ++ k :: suf := heq
            refine ⟨k0 :: pre', suf, by simp [heqF], ?_, ?_, ?_⟩
            · refine List.nodup_cons.mpr ⟨?_, hnd⟩
              intro hmem
              exact (hpre k0 hmem) (List.mem_cons_self _ _)
            · intro a ha
              rcases List.mem_cons.mp ha with rfl | ha'
              · exact hks
              · intro has
                exact (hpre a ha') (List.mem_cons_of_mem _ has)
            · rcases hor with hin | hin
              · exact Or.inl (List.mem_cons_of_mem _ hin)
              · rcases List.mem_cons.mp hin with rfl | hin'
                · exact Or.inl (List.mem_cons_self _ _)
                · exact Or.inr hin'
          · rintro ⟨pre, suf, heq, hnd, hpre, hor⟩
            cases pre with
            | nil =>
                simp only [List.nil_append] at heq
                have hkk : k0 = k := ((List.cons.injEq _ _ _ _).mp heq).1
                subst hkk
                rcases hor with hin | hin
                · exact absurd hin (List.not_mem_nil _)
                · exact absurd hin hks
            | cons p pre' =>
                have hp : p = k0 := ((List.cons.injEq _ _ _ _).mp heq.symm).1
                subst hp
                have heq' : measKeys rest = pre' ++ k :: suf :=
                  ((List.cons.injEq _ _ _ _).mp heq).2
                rcases List.nodup_cons.mp hnd with ⟨hk0, hnd'⟩
                refine ⟨pre', suf, heq', hnd', ?_, ?_⟩
                · intro a ha hain
                  rcases List.mem_cons.mp hain with rfl | has
                  · exact hk0 ha
                  · exact (hpre a (List.mem_cons_of_mem _ ha)) has
                · rcases hor with hin | hin
                  · rcases List.mem_cons.mp hin with rfl | hin'
                    · exact Or.inr (List.mem_cons_self _ _)
                    · exact Or.inl hin'
                  · exact Or.inr (List.mem_cons_of_mem _ hin)

theorem verify_keys_from_shape (l : List Operation) :
    ∀ seen : List String,
      verify_keys_from seen l = .ok () ∨
        ∃ k, verify_keys_from seen l = .error (.duplicateMeasurementKey k) := by
  induction l with
  | nil => intro seen; exact Or.inl rfl
  | cons op rest ih =>
    intro seen
    cases hk : op.measurement_key with
    | none => simpa [verify_keys_from, hk] using ih seen
    | some k0 =>
        by_cases hks : k0 ∈ seen
        · exact Or.inr ⟨k0, by simp [verify_keys_from, hk, hks]⟩
        · simpa [verify_keys_from, hk, hks] using ih (k0 :: seen)

/-! Claim theorems. -/

/-- C1: on the timing device, `validate_operation` on a gate operation fails
with `UnsupportedGateError` when the gate's kind is outside the allowed set,
otherwise with `QubitNotOnDeviceError` when some operand is not a Position or
is a Position outside the topology, otherwise with `NonLocalInteractionError`
when the operation has exactly two operands, is not a measurement, and its
operand positions are not grid-adjacent; otherwise it succeeds. -/
theorem claim1_validate_operation (d : XmonDevice) (g : GateOperation) :
    d.validate_operation (.gateOp g) =
      if allowedXmonGateKind g.gate.kind = false then .error .unsupportedGate
      else if ∃ q ∈ g.qubits, onDeviceB d q = false then .error .qubitNotOnDevice
      else if g.qubits.length = 2 ∧ g.gate.kind.isMeasurement = false ∧
              adjacentPair g.qubits = false
           then .error .nonLocalInteraction
      else .ok () := by
  by_cases h1 : allowedXmonGateKind g.gate.kind = true
  · by_cases h2 : ∃ q ∈ g.qubits, onDeviceB d q = false
    · simp [XmonDevice.validate_operation, XmonDevice.validate_gate, validate_qubits_eq,
            h1, h2, except_ok_bind, except_error_bind]
    · by_cases h3 : g.qubits.length = 2
      · by_cases h4 : g.gate.kind.isMeasurement = false
        · by_cases h5 : adjacentPair g.qubits = true
          · simp [XmonDevice.validate_operation, XmonDevice.validate_gate, validate_qubits_eq,
                  h1, h2, h3, h4, h5, except_ok_bind, except_error_bind]
          · simp [XmonDevice.validate_operation, XmonDevice.validate_gate, validate_qubits_eq,
                  h1, h2, h3, h4, h5, except_ok_bind, except_error_bind]
        · simp [XmonDevice.validate_operation, XmonDevice.validate_gate, validate_qubits_eq,
                h1, h2, h3, h4, except_ok_bind, except_error_bind]
      · simp [XmonDevice.validate_operation, XmonDevice.validate_gate, validate_qubits_eq,
              h1, h2, h3, except_ok_bind, except_error_bind]
  · have h1f : allowedXmonGateKind g.gate.kind = false := by
      revert h1; cases allowedXmonGateKind g.gate.kind <;> simp
    simp [XmonDevice.validate_operation, XmonDevice.validate_gate, h1f, except_error_bind]

/-- C2: for a two-qubit-interaction operation opA and any gate operation opB,
`interacts` is false whenever opB's gate kind is in the non-interacting set,
regardless of adjacency; otherwise it is true exactly when some operand of
opA is grid-adjacent to some operand of opB. -/
theorem claim2_interacts (opA opB : GateOperation) (hA : opA.gate.kind = .czPow) :
    (nonInteractingGateKind opB.gate.kind = true →
        check_if_exp11_operation_interacts opA opB = false) ∧
    (nonInteractingGateKind opB.gate.kind = false →
        (check_if_exp11_operation_interacts opA opB = true ↔
          ∃ p q : GridQubit, Qid.grid p ∈ opA.qubits ∧ Qid.grid q ∈ opB.qubits ∧
            p.is_adjacent q = true)) := by
  constructor
  · intro h; simp [check_if_exp11_operation_interacts, h]
  · intro h
    simp only [check_if_exp11_operation_interacts, h, Bool.false_eq_true, if_false,
      List.any_eq_true]
    constructor
    · rintro ⟨qa, hqa, qb, hqb, hadj⟩
      cases qa with
      | grid p =>
          cases qb with
          | grid q => exact ⟨p, q, hqa, hqb, hadj⟩
          | nonGrid m => simp [Qid.adjacentB] at hadj
      | nonGrid m => cases qb <;> simp [Qid.adjacentB] at hadj
    · rintro ⟨p, q, hp, hq, hadj⟩
      exact ⟨.grid p, hp, .grid q, hq, hadj⟩

theorem claim2_interacts_witness :
    check_if_exp11_operation_interacts
      { gate := { kind := .czPow }, qubits := [.grid ⟨0, 0⟩, .grid ⟨0, 1⟩] }
      { gate := { kind := .xPow }, qubits := [.grid ⟨1, 0⟩] } = false :=
  (claim2_interacts
    { gate := { kind := .czPow }, qubits := [.grid ⟨0, 0⟩, .grid ⟨0, 1⟩] }
    { gate := { kind := .xPow }, qubits := [.grid ⟨1, 0⟩] } rfl).1 rfl

/-- C3: on a moment whose operations are individually valid, `validate_moment`
fails with `AdjacentInteractionError` exactly when some two-qubit-interaction
member conflicts, per the interacts rule, with some distinct member; and on
the square topology the spec's two-CZ moment fails with that error while the
four-rotation moment succeeds. -/
theorem claim3_validate_moment :
    (∀ (d : XmonDevice) (m : Moment),
        (∀ op ∈ m.operations, d.validate_operation op = .ok ()) →
        (d.validate_moment m = .error .adjacentInteraction ↔
          momentConflictProp m.operations)) ∧
    d4.validate_moment momentCZ2 = .error .adjacentInteraction ∧
    d4.validate_moment momentX4 = .ok () := by
  refine ⟨?_, by decide, by decide⟩
  intro d m h
  have hbase : d.base_validate_moment m = .ok () := validate_ops_list_ok d m.operations h
  have hvm : d.validate_moment m =
      (if momentConflictB m.operations then .error .adjacentInteraction else .ok ()) := by
    show (d.base_validate_moment m >>= fun _ => _) = _
    rw [hbase, except_ok_bind]
  rw [hvm, ← momentConflictB_iff]
  by_cases hc : momentConflictB m.operations = true
  · simp [hc]
  · simp [hc]

theorem claim3_validate_moment_witness :
    d4.validate_moment momentX4 = .error .adjacentInteraction ↔
      momentConflictProp momentX4.operations :=
  claim3_validate_moment.1 d4 momentX4 (by decide)

/-- C4 counterexample: on a moment whose own validation fails,
`can_add_operation_into_moment` does not return false — the validation error
propagates out of the call instead. -/
theorem claim4_counterexample :
    d4.validate_moment momentBad = .error .qubitNotOnDevice ∧
    d4.can_add_operation_into_moment (xOp ⟨0, 0⟩) momentBad ≠ .ok false := by
  exact ⟨by decide, by decide⟩

/-- C4 amended: `can_add_operation_into_moment` propagates the error when
validating the existing moment fails; otherwise it returns false exactly when
the operation is a two-qubit-interaction that conflicts, per the interacts
rule, with some operation already in the moment, and true otherwise. The
embedding is pure, so the moment is never mutated. -/
theorem claim4_can_add (d : XmonDevice) (op : Operation) (m : Moment) :
    (∀ e, d.validate_moment m = .error e →
        d.can_add_operation_into_moment op m = .error e) ∧
    (d.validate_moment m = .ok () →
        d.can_add_operation_into_moment op m =
          .ok (!(Operation.op_gate_is_czPow op &&
                 m.operations.any (fun other => interactsOpB op other)))) := by
  constructor
  · intro e he
    show (d.validate_moment m >>= fun _ => _) = _
    rw [he, except_error_bind]
  · intro hok
    show (d.validate_moment m >>= fun _ => _) = _
    rw [hok, except_ok_bind]
    simp only [base_can_add_operation_into_moment, Bool.not_true, Bool.false_eq_true, if_false]
    by_cases hcz : Operation.op_gate_is_czPow op = true
    · simp only [hcz, if_true]; rfl
    · simp only [hcz, Bool.false_eq_true, if_false, if_neg hcz]; rfl

theorem claim4_can_add_witness :
    d4.can_add_operation_into_moment (czOp ⟨0, 0⟩ ⟨0, 1⟩) ⟨[]⟩ = .ok true := by
  have h := (claim4_can_add d4 (czOp ⟨0, 0⟩ ⟨0, 1⟩) ⟨[]⟩).2 (by decide)
  rw [h]; decide

/-- C5: `get_acquaintance_size` of an acquaintance-opportunity operation on k
operands is k; of a bipartite swap network 2 regardless of operand count; of
a generic swap network with unset target size the sum of the two largest
partition lengths, and with a set target t either t (when t minus one appears
among the partition lengths) or the hook's value, 0 when the hook is absent;
on a circuit it fails with `TypeMismatchError` unless the circuit is an
acquaintance strategy and otherwise is the maximum over the circuit's
operations, 0 on an empty circuit. -/
theorem claim5_acquaintance_size :
    (∀ (hook : Option (Nat → Int)) (qs : List Qid),
        get_acquaintance_size
          (.operation (.gateOp ⟨⟨.acquaintanceOpportunity, hook⟩, qs⟩)) =
          .ok (qs.length : Int)) ∧
    (∀ (hook : Option (Nat → Int)) (qs : List Qid),
        get_acquaintance_size
          (.operation (.gateOp ⟨⟨.bipartiteSwapNetwork, hook⟩, qs⟩)) = .ok 2) ∧
    (∀ (hook : Option (Nat → Int)) (qs : List Qid) (part_lens : List Int),
        get_acquaintance_size
          (.operation (.gateOp ⟨⟨.swapNetwork none part_lens, hook⟩, qs⟩)) =
          .ok (sortedTwoLargestSum part_lens)) ∧
    (∀ (hook : Option (Nat → Int)) (qs : List Qid) (part_lens : List Int) (t : Int),
        get_acquaintance_size
          (.operation (.gateOp ⟨⟨.swapNetwork (some t) part_lens, hook⟩, qs⟩)) =
          .ok (if (t - 1) ∈ part_lens then t
               else match hook with
                    | none => 0
                    | some sizer => sizer qs.length)) ∧
    (∀ c : Circuit,
        get_acquaintance_size (.circuit c) =
          if is_acquaintance_strategy c then
            .ok (listMaxOr0 (c.all_operations.map get_acquaintance_size_op))
          else .error .typeMismatch) ∧
    get_acquaintance_size (.circuit ⟨[], .acquaintanceDevice⟩) = .ok 0 := by
  refine ⟨?_, ?_, ?_, ?_, ?_, by decide⟩
  · intro hook qs; rfl
  · intro hook qs; rfl
  · intro hook qs part_lens; rfl
  · intro hook qs part_lens t
    by_cases hm : (t - 1) ∈ part_lens
    · simp [get_acquaintance_size, get_acquaintance_size_op, hookOr0, hm]
    · cases hook <;> simp [get_acquaintance_size, get_acquaintance_size_op, hookOr0, hm]
  · intro c
    by_cases hs : is_acquaintance_strategy c = true <;>
      simp [get_acquaintance_size, hs]

/-- C6: on the timing device, `duration_of` gives the configured exp11
duration for a two-qubit-interaction, the measurement duration for a
measurement, the exp-w duration for a single-qubit or phased single-qubit
rotation, a zero duration for a virtual phase, and fails with
`UnsupportedGateError` on every other gate kind. -/
theorem claim6_duration_of (d : XmonDevice) :
    (∀ g : GateOperation, g.gate.kind = .czPow →
        d.duration_of (.gateOp g) = .ok d.exp_z_duration) ∧
    (∀ (g : GateOperation) (k : String), g.gate.kind = .measurementGate k →
        d.duration_of (.gateOp g) = .ok d.measurement_duration) ∧
    (∀ g : GateOperation,
        g.gate.kind = .xPow ∨ g.gate.kind = .yPow ∨ g.gate.kind = .phasedXPow →
        d.duration_of (.gateOp g) = .ok d.exp_w_duration) ∧
    (∀ g : GateOperation, g.gate.kind = .zPow →
        d.duration_of (.gateOp g) = .ok 0) ∧
    (∀ g : GateOperation, allowedXmonGateKind g.gate.kind = false →
        d.duration_of (.gateOp g) = .error .unsupportedGate) := by
  refine ⟨?_, ?_, ?_, ?_, ?_⟩
  · intro g h; simp [XmonDevice.duration_of, h]
  · intro g k h; simp [XmonDevice.duration_of, h]
  · rintro g (h | h | h) <;> simp [XmonDevice.duration_of, h]
  · intro g h; simp [XmonDevice.duration_of, h]
  · intro g h
    cases hk : g.gate.kind <;> simp_all [XmonDevice.duration_of, allowedXmonGateKind]

theorem claim6_duration_of_witness :
    d4.duration_of
        (.gateOp { gate := { kind := .czPow }, qubits := [.grid ⟨0, 0⟩, .grid ⟨0, 1⟩] }) =
      .ok d4.exp_z_duration :=
  (claim6_duration_of d4).1
    { gate := { kind := .czPow }, qubits := [.grid ⟨0, 0⟩, .grid ⟨0, 1⟩] } rfl

/-- C7: `verify_unique_measurement_keys` succeeds exactly when the measurement
keys of the sequence are duplicate-free, a failure is always a
`DuplicateMeasurementKeyError`, and its key is the first repeated one in scan
order (the keys before it are duplicate-free and already contain it);
consequently a circuit with two identically-keyed measurements fails
whole-circuit validation with that error while the same circuit with distinct
keys passes. -/
theorem claim7_measurement_keys :
    (∀ ops : List Operation,
        (verify_unique_measurement_keys ops = .ok () ↔ (measKeys ops).Nodup)) ∧
    (∀ ops : List Operation,
        verify_unique_measurement_keys ops = .ok () ∨
          ∃ k, verify_unique_measurement_keys ops = .error (.duplicateMeasurementKey k)) ∧
    (∀ (ops : List Operation) (k : String),
        verify_unique_measurement_keys ops = .error (.duplicateMeasurementKey k) ↔
          ∃ pre suf, measKeys ops = pre ++ k :: suf ∧ pre.Nodup ∧ k ∈ pre) ∧
    d4.validate_circuit circDup = .error (.duplicateMeasurementKey "a") ∧
    d4.validate_circuit circDistinct = .ok () := by
  refine ⟨?_, ?_, ?_, by decide, by decide⟩
  · intro ops
    rw [verify_unique_measurement_keys, verify_keys_from_ok_iff]
    simp
  · intro ops
    exact verify_keys_from_shape ops []
  · intro ops k
    rw [verify_unique_measurement_keys, verify_keys_from_error_iff]
    simp

/-- C8: `neighbors_of` contains exactly the cardinal grid neighbors that are
themselves members of the topology; it never contains the position itself and
never contains a diagonal position. -/
theorem claim8_neighbors (d : XmonDevice) (p q : GridQubit) :
    (q ∈ d.neighbors_of p ↔ q ∈ d.qubits ∧ cardinalNeighbor p q) ∧
    p ∉ d.neighbors_of p ∧
    ((q.row - p.row).natAbs = 1 ∧ (q.col - p.col).natAbs = 1 → q ∉ d.neighbors_of p) := by
  have hmem : ∀ r : GridQubit, r ∈ d.neighbors_of p ↔ r ∈ d.qubits ∧ cardinalNeighbor p r := by
    intro r
    obtain ⟨rr, rc⟩ := r
    simp [XmonDevice.neighbors_of, List.mem_filter, cardinalNeighbor, GridQubit.mk.injEq]
    tauto
  refine ⟨hmem q, ?_, ?_⟩
  · intro hp
    rcases (hmem p).mp hp with ⟨-, hcard⟩
    rcases hcard with ⟨h1, -⟩ | ⟨h1, -⟩ | ⟨-, h2⟩ | ⟨-, h2⟩ <;> omega
  · rintro ⟨h1, h2⟩ hq
    rcases (hmem q).mp hq with ⟨-, hcard⟩
    rcases hcard with ⟨ha, hb⟩ | ⟨ha, hb⟩ | ⟨ha, hb⟩ | ⟨ha, hb⟩ <;> omega

theorem claim8_neighbors_witness :
    (⟨1, 1⟩ : GridQubit) ∉ d4.neighbors_of ⟨0, 0⟩ :=
  (claim8_neighbors d4 ⟨0, 0⟩ ⟨1, 1⟩).2.2 (by decide)

/-- C9: on the acquaintance-only device, `duration_of`,
`validate_scheduled_operation` and `validate_schedule` fail with
`NotSupportedError` on every input. -/
theorem claim9_acquaintance_timing (s : Schedule) (so : ScheduledOperation) (op : Operation) :
    acquaintance_duration_of op = .error .notSupported ∧
    acquaintance_validate_scheduled_operation s so = .error .notSupported ∧
    acquaintance_validate_schedule s = .error .notSupported :=
  ⟨rfl, rfl, rfl⟩

/-- C10: the acquaintance-only device's `validate_operation` accepts every
gate operation whose gate is an acquaintance-opportunity or permutation gate
regardless of its operand qubits, and it can never fail with
`QubitNotOnDeviceError` or `NonLocalInteractionError`. -/
theorem claim10_acquaintance_validate (g : Gate) (qs : List Qid) (op : Operation) :
    ((g.kind = .acquaintanceOpportunity ∨ g.kind = .permutation) →
        acquaintance_validate_operation (.gateOp ⟨g, qs⟩) = .ok ()) ∧
    acquaintance_validate_operation op ≠ .error .qubitNotOnDevice ∧
    acquaintance_validate_operation op ≠ .error .nonLocalInteraction := by
  refine ⟨?_, ?_, ?_⟩
  · rintro (h | h) <;> simp [acquaintance_validate_operation, acquaintanceGateKind, h]
  · cases op with
    | gateOp g' =>
        by_cases h : acquaintanceGateKind g'.gate.kind = true <;>
          simp [acquaintance_validate_operation, h]
    | nonGateOp n => simp [acquaintance_validate_operation]
  · cases op with
    | gateOp g' =>
        by_cases h : acquaintanceGateKind g'.gate.kind = true <;>
          simp [acquaintance_validate_operation, h]
    | nonGateOp n => simp [acquaintance_validate_operation]

theorem claim10_acquaintance_validate_witness :
    acquaintance_validate_operation
      (.gateOp { gate := { kind := .acquaintanceOpportunity },
                 qubits := [.grid ⟨9, 9⟩] }) = .ok () :=
  (claim10_acquaintance_validate { kind := .acquaintanceOpportunity } [.grid ⟨9, 9⟩]
    (.nonGateOp 0)).1 (Or.inl rfl)

end Cirq
